import Mathlib

set_option autoImplicit false

/-!
# Verification of the restaurant statistics service

A shallow embedding of `main.py`: the FastAPI route table (in registration
order), the `haversine_distance` function, and the
`GET /restaurants/statistics` handler (parameter validation, radius filter,
count/mean/sample-standard-deviation aggregation), together with theorems
checking the natural-language specification against these definitions.

Python floats are modelled as real numbers; `Optional` query parameters as
`Option`; the `StatisticsError` that `statistics.stdev` raises on fewer than
two data points as an `Option` result, surfaced by the handler as an
uncaught-exception outcome.
-/

/-! ## HTTP routing layer

FastAPI (via Starlette) matches routes in registration order; the first
route whose method and path pattern match wins.  `main.py` registers, in
order: `GET /restaurants`, `GET /restaurants/{restaurant_id}`,
`POST /restaurants`, `PUT /restaurants/{restaurant_id}`,
`DELETE /restaurants/{restaurant_id}`, `GET /restaurants/statistics`.
-/

/-- The six handlers declared in `main.py`, identified by name. -/
inductive HandlerId where
  | getAllRestaurants
  | getRestaurantById
  | createRestaurant
  | updateRestaurant
  | deleteRestaurant
  | getRestaurantsStatistics
  deriving DecidableEq

/-- One segment of a route path pattern: a literal, or a `{...}` path
parameter that matches any single segment. -/
inductive Seg where
  | lit (s : String)
  | pathParam (s : String)
  deriving DecidableEq

/-- Does a pattern segment match a concrete path segment? -/
def segMatches : Seg → String → Bool
  | .lit s, t => s == t
  | .pathParam _, _ => true

/-- Does a route pattern match a concrete path (split into segments)? -/
def pathMatches : List Seg → List String → Bool
  | [], [] => true
  | s :: ps, t :: ts => segMatches s t && pathMatches ps ts
  | _, _ => false

/-- A registered route: HTTP method, path pattern, handler. -/
structure Route where
  method : String
  pattern : List Seg
  handler : HandlerId

/-- The route table of `main.py`, in the order the decorators appear
(lines 76, 100, 128, 153, 187, 222). -/
def app_routes : List Route :=
  [ ⟨"GET", [.lit "restaurants"], .getAllRestaurants⟩,
    ⟨"GET", [.lit "restaurants", .pathParam "restaurant_id"], .getRestaurantById⟩,
    ⟨"POST", [.lit "restaurants"], .createRestaurant⟩,
    ⟨"PUT", [.lit "restaurants", .pathParam "restaurant_id"], .updateRestaurant⟩,
    ⟨"DELETE", [.lit "restaurants", .pathParam "restaurant_id"], .deleteRestaurant⟩,
    ⟨"GET", [.lit "restaurants", .lit "statistics"], .getRestaurantsStatistics⟩ ]

/-- First-match dispatch over the registered routes, as Starlette performs it. -/
def dispatch (method : String) (path : List String) : Option HandlerId :=
  (app_routes.find? fun r => r.method == method && pathMatches r.pattern path).map
    Route.handler

/-! ## Data model -/

/-- One row of `SELECT rating, lat, lng FROM restaurants` (line 241):
an integer rating and float coordinates. -/
structure Row where
  rating : ℤ
  lat : ℝ
  lng : ℝ

/-- Outcome of the statistics handler.  `badRequest` carries the `detail`
string of the HTTPException (status 400); `notFound` is the 404 raised on an
empty filter; `internalError` is an uncaught exception escaping the handler
(HTTP 500); `ok` is the 200 response `{"count": …, "avg": …, "std": …}`. -/
inductive StatsResult where
  | badRequest (detail : String)
  | notFound
  | internalError
  | ok (count : ℕ) (avg std : ℝ)

/-- Detail string of the 400 raised at line 224. -/
def missingDetail : String :=
  "Latitude, longitude, and radius are required query parameters."

/-- Detail string of the 400 raised at line 228. -/
def invalidLatitudeDetail : String :=
  "Invalid latitude value. Must be between -90 and 90."

/-- Detail string of the 400 raised at line 232. -/
def invalidLongitudeDetail : String :=
  "Invalid longitude value. Must be between -180 and 180."

/-- Detail string of the 400 raised at line 236. -/
def invalidRadiusDetail : String :=
  "Invalid radius value. Must be greater than 0."

noncomputable section

open scoped Classical

open Real

/-! ## Geo-distance function -/

/-- Python `math.radians`: degrees to radians. -/
def radians (x : ℝ) : ℝ := x * (π / 180)

/-- Python `math.atan2 y x`: the angle of the point `(x, y)`, in `(-π, π]`. -/
def atan2 (y x : ℝ) : ℝ :=
  if 0 < x then arctan (y / x)
  else if x < 0 then
    if 0 ≤ y then arctan (y / x) + π else arctan (y / x) - π
  else
    if 0 < y then π / 2 else if y < 0 then -(π / 2) else 0

/-- `haversine_distance` from `main.py` lines 209–219: Earth radius
`R = 6371` km, haversine `a`, central angle `c = 2*atan2(√a, √(1-a))`,
result `R * c * 1000` meters. -/
def haversine_distance (lat1 lon1 lat2 lon2 : ℝ) : ℝ :=
  let R : ℝ := 6371
  let d_lat := radians (lat2 - lat1)
  let d_lon := radians (lon2 - lon1)
  let lat1r := radians lat1
  let lat2r := radians lat2
  let a := sin (d_lat / 2) * sin (d_lat / 2) +
    sin (d_lon / 2) * sin (d_lon / 2) * cos lat1r * cos lat2r
  let c := 2 * atan2 (Real.sqrt a) (Real.sqrt (1 - a))
  R * c * 1000

/-- The geo-distance algorithm exactly as the specification words it:
convert both points to radians, `a = sin²(Δlat/2) + cos lat1 · cos lat2 ·
sin²(Δlon/2)`, `c = 2·atan2(√a, √(1-a))`, result `6371000 · c` meters. -/
def spec_distance (lat1 lon1 lat2 lon2 : ℝ) : ℝ :=
  let φ1 := radians lat1
  let φ2 := radians lat2
  let l1 := radians lon1
  let l2 := radians lon2
  let a := sin ((φ2 - φ1) / 2) ^ 2 + cos φ1 * cos φ2 * sin ((l2 - l1) / 2) ^ 2
  let c := 2 * atan2 (Real.sqrt a) (Real.sqrt (1 - a))
  6371000 * c

/-! ## Statistics engine -/

/-- Arithmetic mean, as `sum(...) / count` computes it. -/
def mean (xs : List ℝ) : ℝ := xs.sum / xs.length

/-- Sample variance with Bessel correction (denominator `n - 1`), the
quantity the Python `statistics.stdev` takes the square root of. -/
def sampleVariance (xs : List ℝ) : ℝ :=
  (xs.map fun x => (x - mean xs) ^ 2).sum / ((xs.length : ℝ) - 1)

/-- Python `statistics.stdev`: `none` models the `StatisticsError` raised
when fewer than two data points are supplied. -/
def stdev (xs : List ℝ) : Option ℝ :=
  if xs.length < 2 then none else some (Real.sqrt (sampleVariance xs))

/-- The filter at lines 247–250: keep the rows whose haversine distance
from the query point is `<= radius`. -/
def inside_circle (latitude longitude : ℝ) (radius : ℤ) (rows : List Row) :
    List Row :=
  rows.filter fun row =>
    decide (haversine_distance latitude longitude row.lat row.lng ≤ (radius : ℝ))

/-- The `GET /restaurants/statistics` handler body (lines 222–261), with the
full-table scan abstracted as the `rows` argument.  The checks appear in
source order: missing parameters, latitude range, longitude range, radius
positivity, then the radius filter, the emptiness check, and the
aggregation.  `stdev` returning `none` (one data point) is an uncaught
`StatisticsError`, hence `internalError`. -/
def get_restaurants_statistics (rows : List Row)
    (latitude longitude : Option ℝ) (radius : Option ℤ) : StatsResult :=
  match latitude, longitude, radius with
  | some latitude, some longitude, some radius =>
    if ¬(-90 ≤ latitude ∧ latitude ≤ 90) then .badRequest invalidLatitudeDetail
    else if ¬(-180 ≤ longitude ∧ longitude ≤ 180) then
      .badRequest invalidLongitudeDetail
    else if radius ≤ 0 then .badRequest invalidRadiusDetail
    else
      let ic := inside_circle latitude longitude radius rows
      if ic = [] then .notFound
      else
        match stdev (ic.map fun r => (r.rating : ℝ)) with
        | none => .internalError
        | some std => .ok ic.length ((ic.map fun r => (r.rating : ℝ)).sum / ic.length) std
  | _, _, _ => .badRequest missingDetail

/-! ## Spec-side validation contract (for the refinement claim C3) -/

/-- The five mutually exclusive outcomes named by the validation
contract of the specification. -/
inductive Outcome where
  | missingParameter
  | invalidLatitude
  | invalidLongitude
  | invalidRadius
  | successPath
  deriving DecidableEq

/-- Which outcome a handler result falls under: a 400 is classified by its
detail string; everything else means validation passed (success path). -/
def classify : StatsResult → Outcome
  | .badRequest d =>
    if d = missingDetail then .missingParameter
    else if d = invalidLatitudeDetail then .invalidLatitude
    else if d = invalidLongitudeDetail then .invalidLongitude
    else .invalidRadius
  | _ => .successPath

/-- The validation contract exactly as the specification words it, first
failing check wins: (1) all of latitude, longitude, radius present,
(2) latitude ∈ [-90, 90], (3) longitude ∈ [-180, 180], (4) radius > 0. -/
def specFirstFailing (latitude longitude : Option ℝ) (radius : Option ℤ) :
    Outcome :=
  match latitude, longitude, radius with
  | some lat, some lng, some rad =>
    if lat < -90 ∨ 90 < lat then .invalidLatitude
    else if lng < -180 ∨ 180 < lng then .invalidLongitude
    else if rad ≤ 0 then .invalidRadius
    else .successPath
  | _, _, _ => .missingParameter

end

section

open scoped Classical

open Real

/-- C1: a `GET /restaurants/statistics` request is dispatched by the route
table of `main.py` to `get_restaurant_by_id` (with `restaurant_id` bound to
the literal segment `statistics`), not to `get_restaurants_statistics`,
because the parameterised route is registered first and Starlette matches in
registration order.  This refutes the claim that such a request reaches the
statistics handler: the statistics route is unreachable. -/
theorem statistics_path_routed_to_get_by_id :
    dispatch "GET" ["restaurants", "statistics"] = some .getRestaurantById ∧
    dispatch "GET" ["restaurants", "statistics"] ≠ some .getRestaurantsStatistics := by
  constructor
  · rfl
  · decide

/-- Conversion to radians is linear, so converting a difference of degrees
equals the difference of the converted angles. -/
theorem radians_sub (x y : ℝ) : radians (x - y) = radians x - radians y := by
  unfold radians; ring

/-- The distance from a point to itself is zero. -/
theorem haversine_self (lat lon : ℝ) : haversine_distance lat lon lat lon = 0 := by
  simp [haversine_distance, radians, atan2, Real.sqrt_one]

/-- C8: `haversine_distance` is symmetric in its two points:
`distance(A, B) = distance(B, A)` for all inputs. -/
theorem haversine_symmetric (lat1 lon1 lat2 lon2 : ℝ) :
    haversine_distance lat1 lon1 lat2 lon2 = haversine_distance lat2 lon2 lat1 lon1 := by
  simp only [haversine_distance]
  rw [show radians (lat1 - lat2) = -(radians (lat2 - lat1)) by unfold radians; ring,
    show radians (lon1 - lon2) = -(radians (lon2 - lon1)) by unfold radians; ring]
  simp only [neg_div, Real.sin_neg]
  ring_nf

/-- C5: `haversine_distance` computes exactly the formula the specification
states: both points converted to radians, `a = sin²(Δlat/2) + cos lat1 ·
cos lat2 · sin²(Δlon/2)`, `c = 2·atan2(√a, √(1-a))`, and the result is
`6371000 · c` meters (Earth radius 6,371,000 m). -/
theorem haversine_matches_spec_formula (lat1 lon1 lat2 lon2 : ℝ) :
    haversine_distance lat1 lon1 lat2 lon2 = spec_distance lat1 lon1 lat2 lon2 := by
  simp only [haversine_distance, spec_distance, radians_sub]
  ring_nf

/-- C2: a row belongs to the filtered set used for count/avg/std exactly
when it is a stored row whose haversine distance from the query point is
less than or equal to the radius — the boundary case distance = radius is
included, since membership is equivalent to the non-strict inequality. -/
theorem inside_circle_mem_iff (latitude longitude : ℝ) (radius : ℤ)
    (rows : List Row) (r : Row) :
    r ∈ inside_circle latitude longitude radius rows ↔
      r ∈ rows ∧ haversine_distance latitude longitude r.lat r.lng ≤ (radius : ℝ) := by
  simp [inside_circle, List.mem_filter]

/-- For nonnegative arguments, `atan2 y x` lies in `[0, π/2]`. -/
theorem atan2_nonneg_le_pi_div_two (y x : ℝ) (hy : 0 ≤ y) (hx : 0 ≤ x) :
    0 ≤ atan2 y x ∧ atan2 y x ≤ π / 2 := by
  unfold atan2
  rcases lt_or_eq_of_le hx with hxpos | hxzero
  · rw [if_pos hxpos]
    constructor
    · have h0 : (0:ℝ) ≤ y / x := div_nonneg hy hxpos.le
      have := Real.arctan_strictMono.monotone h0
      simpa [Real.arctan_zero] using this
    · exact (Real.arctan_lt_pi_div_two _).le
  · rw [if_neg (by rw [← hxzero]; exact lt_irrefl 0),
      if_neg (by rw [← hxzero]; exact lt_irrefl 0)]
    rcases lt_or_eq_of_le hy with hypos | hyzero
    · rw [if_pos hypos]
      exact ⟨by positivity, le_refl _⟩
    · rw [if_neg (by rw [← hyzero]; exact lt_irrefl 0),
        if_neg (by rw [← hyzero]; exact lt_irrefl 0)]
      exact ⟨le_refl _, by positivity⟩

/-- C10: for latitudes in [-90, 90] and longitudes in [-180, 180],
`haversine_distance` returns a value between 0 and π · 6,371,000 meters
(half the circumference of the Earth at the assumed radius). -/
theorem haversine_range (lat1 lon1 lat2 lon2 : ℝ)
    (h1 : -90 ≤ lat1 ∧ lat1 ≤ 90) (h2 : -90 ≤ lat2 ∧ lat2 ≤ 90)
    (h3 : -180 ≤ lon1 ∧ lon1 ≤ 180) (h4 : -180 ≤ lon2 ∧ lon2 ≤ 180) :
    0 ≤ haversine_distance lat1 lon1 lat2 lon2 ∧
      haversine_distance lat1 lon1 lat2 lon2 ≤ π * 6371000 := by
  simp only [haversine_distance]
  have key : ∀ a : ℝ,
      0 ≤ 6371 * (2 * atan2 (Real.sqrt a) (Real.sqrt (1 - a))) * 1000 ∧
      6371 * (2 * atan2 (Real.sqrt a) (Real.sqrt (1 - a))) * 1000 ≤ π * 6371000 := by
    intro a
    obtain ⟨hl, hu⟩ := atan2_nonneg_le_pi_div_two (Real.sqrt a) (Real.sqrt (1 - a))
      (Real.sqrt_nonneg _) (Real.sqrt_nonneg _)
    constructor <;> linarith
  exact key _

/-- C3: for every statistics request, the outcome of the handler is exactly
the one obtained by running the four validation checks in the order of the
specification — parameters present, latitude in [-90, 90], longitude in
[-180, 180], radius > 0 — with the first failing check winning, and the
success path (any non-400 outcome) otherwise.  In particular, when longitude
is absent and latitude is 200, `specFirstFailing` yields `missingParameter`,
so the handler reports the missing parameter, not the invalid latitude. -/
theorem validation_first_failing_check_wins (rows : List Row)
    (latitude longitude : Option ℝ) (radius : Option ℤ) :
    classify (get_restaurants_statistics rows latitude longitude radius) =
      specFirstFailing latitude longitude radius := by
  cases latitude with
  | none =>
    cases longitude <;> cases radius <;>
      simp [get_restaurants_statistics, specFirstFailing, classify]
  | some lat =>
    cases longitude with
    | none =>
      cases radius <;>
        simp [get_restaurants_statistics, specFirstFailing, classify]
    | some lng =>
      cases radius with
      | none =>
        simp [get_restaurants_statistics, specFirstFailing, classify]
      | some rad =>
        simp only [get_restaurants_statistics, specFirstFailing, not_and_or, not_le]
        split_ifs with hA hB hC hD
        · simp [classify, missingDetail, invalidLatitudeDetail,
            invalidLongitudeDetail, invalidRadiusDetail]
        · simp [classify, missingDetail, invalidLatitudeDetail,
            invalidLongitudeDetail, invalidRadiusDetail]
        · simp [classify, missingDetail, invalidLatitudeDetail,
            invalidLongitudeDetail, invalidRadiusDetail]
        · simp [classify]
        · cases stdev ((inside_circle lat lng rad rows).map fun r => (r.rating : ℝ)) <;>
            simp [classify]

/-- C4: with exactly one stored record inside the radius, the handler does
not follow any documented UndefinedDeviation policy: `statistics.stdev`
raises an uncaught `StatisticsError` on a single data point, so the request
crashes with an internal error (HTTP 500).  This refutes the claim that the
engine signals a documented error or returns a sentinel. -/
theorem single_record_stdev_crashes :
    get_restaurants_statistics [⟨5, 0, 0⟩] (some 0) (some 0) (some 1000) =
      .internalError := by
  have hic : inside_circle 0 0 1000 [⟨5, 0, 0⟩] = [⟨5, 0, 0⟩] := by
    simp [inside_circle, haversine_self]
  simp only [get_restaurants_statistics, hic]
  rw [if_neg (by norm_num), if_neg (by norm_num), if_neg (by decide)]
  rw [if_neg (by simp)]
  simp [stdev]

/-- C6: for every statistics request with valid parameters whose filtered
set is empty, the handler returns `notFound` (HTTP 404) and no statistics
are computed or returned. -/
theorem empty_filter_notFound (rows : List Row) (lat lng : ℝ) (radius : ℤ)
    (hlat : -90 ≤ lat ∧ lat ≤ 90) (hlng : -180 ≤ lng ∧ lng ≤ 180)
    (hrad : 0 < radius)
    (hempty : inside_circle lat lng radius rows = []) :
    get_restaurants_statistics rows (some lat) (some lng) (some radius) =
      .notFound := by
  simp only [get_restaurants_statistics]
  rw [if_neg (not_not_intro hlat), if_neg (not_not_intro hlng),
    if_neg (by omega : ¬radius ≤ 0), if_pos hempty]

/-- Witness for C6: an empty store, a valid query. -/
theorem empty_filter_notFound_witness :
    get_restaurants_statistics [] (some 0) (some 0) (some 1000) = .notFound :=
  empty_filter_notFound [] 0 0 1000 (by norm_num) (by norm_num) (by norm_num) rfl

/-- C7: three records at the query center with ratings [1, 3, 5] and a
radius large enough to include all of them yield count = 3, avg = 3.0 and
std = 2.0 (the sample standard deviation of [1, 3, 5]). -/
theorem three_ratings_statistics :
    get_restaurants_statistics [⟨1, 0, 0⟩, ⟨3, 0, 0⟩, ⟨5, 0, 0⟩]
      (some 0) (some 0) (some 1000) = .ok 3 3 2 := by
  have hic : inside_circle 0 0 1000 [⟨1, 0, 0⟩, ⟨3, 0, 0⟩, ⟨5, 0, 0⟩] =
      [⟨1, 0, 0⟩, ⟨3, 0, 0⟩, ⟨5, 0, 0⟩] := by
    simp [inside_circle, haversine_self]
  have hvar : sampleVariance [(1 : ℝ), 3, 5] = 4 := by
    norm_num [sampleVariance, mean]
  simp only [get_restaurants_statistics, hic]
  rw [if_neg (by norm_num), if_neg (by norm_num), if_neg (by decide)]
  rw [if_neg (by simp)]
  simp only [List.map_cons, List.map_nil]
  norm_num [stdev, hvar]
  rw [show (4 : ℝ) = 2 ^ 2 by norm_num, Real.sqrt_sq (by norm_num : (0:ℝ) ≤ 2)]

/-- The mean is invariant under permutation of the data. -/
theorem mean_perm {xs ys : List ℝ} (h : xs.Perm ys) : mean xs = mean ys := by
  unfold mean
  rw [h.sum_eq, h.length_eq]

/-- The sample variance is invariant under permutation of the data. -/
theorem sampleVariance_perm {xs ys : List ℝ} (h : xs.Perm ys) :
    sampleVariance xs = sampleVariance ys := by
  unfold sampleVariance
  simp only [mean_perm h, h.length_eq, (h.map fun x => (x - mean ys) ^ 2).sum_eq]

/-- The sample standard deviation (and its defined-ness) is invariant under
permutation of the data. -/
theorem stdev_perm {xs ys : List ℝ} (h : xs.Perm ys) : stdev xs = stdev ys := by
  unfold stdev
  simp only [h.length_eq, sampleVariance_perm h]

/-- C9: permuting the stored rows leaves the handler result — in particular
count, avg and std — unchanged, for every statistics request. -/
theorem statistics_perm_invariant (rows rows' : List Row) (h : rows.Perm rows')
    (latitude longitude : Option ℝ) (radius : Option ℤ) :
    get_restaurants_statistics rows latitude longitude radius =
      get_restaurants_statistics rows' latitude longitude radius := by
  cases latitude with
  | none => rfl
  | some lat =>
    cases longitude with
    | none => rfl
    | some lng =>
      cases radius with
      | none => rfl
      | some rad =>
        simp only [get_restaurants_statistics]
        have hic : (inside_circle lat lng rad rows).Perm
            (inside_circle lat lng rad rows') := h.filter _
        have hnil : (inside_circle lat lng rad rows = []) ↔
            (inside_circle lat lng rad rows' = []) := by
          rw [← List.length_eq_zero, ← List.length_eq_zero, hic.length_eq]
        have hmap : ((inside_circle lat lng rad rows).map fun r => (r.rating : ℝ)).Perm
            ((inside_circle lat lng rad rows').map fun r => (r.rating : ℝ)) :=
          hic.map _
        refine if_congr Iff.rfl rfl (if_congr Iff.rfl rfl (if_congr Iff.rfl rfl
          (if_congr hnil rfl ?_)))
        rw [stdev_perm hmap, hic.length_eq, hmap.sum_eq]

/-- Witness for C9: swapping two concrete rows. -/
theorem statistics_perm_invariant_witness :
    get_restaurants_statistics [⟨1, 0, 0⟩, ⟨3, 0, 0⟩] (some 0) (some 0) (some 1000) =
      get_restaurants_statistics [⟨3, 0, 0⟩, ⟨1, 0, 0⟩] (some 0) (some 0) (some 1000) :=
  statistics_perm_invariant _ _ (List.Perm.swap _ _ _) _ _ _

/-- Witness for C10 at the origin. -/
theorem haversine_range_witness :
    0 ≤ haversine_distance 0 0 0 0 ∧ haversine_distance 0 0 0 0 ≤ π * 6371000 :=
  haversine_range 0 0 0 0 (by norm_num) (by norm_num) (by norm_num) (by norm_num)

end
